import Mathlib

/-!
Shallow embedding of the client-side data-access layer in src/lib/api.ts.

Modelling conventions:
* Promise-valued functions that may reject are modelled as values of
  type `Except ApiError α`; a resolved promise is `Except.ok`, a rejected
  one `Except.error`.
* Each domain operation wrapper takes the outcome of the live call
  through the pipeline (`live : Except ApiError Resp`) as an explicit
  argument and mirrors the source's try/catch: the `.ok` branch returns
  the response data unchanged, the `.error` branch returns the mock
  fallback from the catch block.
* `Date.now()` is modelled as an explicit `now : Int` argument (the
  millisecond clock sample taken when the fallback is synthesized).
* `Math.random()` is modelled as an explicit `rand : Rat` argument with
  the JS contract 0 <= rand < 1.
* `localStorage` for the token slot and `window.location` navigation are
  modelled by the explicit `BrowserState` record; JS truthiness of a
  `string | null` value is: truthy iff present and nonempty.
* JS object-literal spread (used in the register fallback) is modelled
  by an association list in literal field order, where a lookup takes
  the LAST binding of a key, matching later-field-wins semantics.
* Numeric latitude/longitude literals are modelled as rationals.
-/

/-- A JS string-keyed object with string values, kept in literal field
order (later bindings override earlier ones on lookup). -/
abbrev JsObj : Type := List (String × String)

/-- JS property read on an object literal: the last binding of the key
wins, as with object spread. -/
def jsGet (o : JsObj) (k : String) : Option String :=
  (o.reverse.find? (fun p => p.1 == k)).map (fun p => p.2)

/-- JS String.prototype.includes: substring containment. -/
def jsIncludes (s sub : String) : Bool :=
  s.toList.tails.any (fun t => sub.toList.isPrefixOf t)

/-- An axios error as observed by the interceptors and catch blocks:
`response` is `some status` when the server answered with a non-2xx
status, `none` for network errors and timeouts (error.response is
undefined there). -/
structure ApiError where
  response : Option Nat
deriving Repr, DecidableEq

/-- The part of the axios request config the interceptor touches:
default headers carry a Content-Type and no Authorization. -/
structure RequestConfig where
  contentType : String
  authorization : Option String
deriving Repr, DecidableEq

/-- The config a request starts from, per `axios.create`. -/
def baseConfig : RequestConfig :=
  { contentType := "application/json", authorization := none }

/-- Browser-global state touched by the pipeline: the localStorage
token slot under the fixed key, and the history of hard navigations
performed via window.location.href assignments. -/
structure BrowserState where
  authToken : Option String
  navHistory : List String
deriving Repr, DecidableEq

/-- Request interceptor (api.interceptors.request.use): reads the token
from storage; `if (token)` is JS-truthy only for a present, nonempty
string, in which case the Authorization header is set to the bearer
form; otherwise the config passes through untouched. -/
def requestInterceptor (store : Option String) (config : RequestConfig) :
    RequestConfig :=
  match store with
  | none => config
  | some token =>
      if token = "" then config
      else { config with authorization := some ("Bearer " ++ token) }

/-- Response interceptor, success path: `(response) => response`. -/
def responseSuccessInterceptor {α : Type} (response : α) : α := response

/-- Response interceptor, error path: on `error.response?.status === 401`
clears the token slot and navigates to the login route, then re-raises
the error; any other error is re-raised untouched. The returned pair is
(browser state afterwards, the error the rejected promise carries). -/
def responseErrorInterceptor (st : BrowserState) (err : ApiError) :
    BrowserState × ApiError :=
  if err.response = some 401 then
    ({ authToken := none, navHistory := st.navHistory ++ ["/auth/login"] }, err)
  else
    (st, err)

/-- Login success payload: `{ user, token }` with the demo user record. -/
structure User where
  id : String
  email : String
  firstName : String
  lastName : String
  phoneNumber : String
  role : String
deriving Repr, DecidableEq

structure LoginResp where
  user : User
  token : String
deriving Repr, DecidableEq

/-- Register success payload: the user object is built with spread
semantics, so it is kept as a JS object. -/
structure RegisterResp where
  user : JsObj
  token : String
deriving Repr, DecidableEq

structure VerifyOTPResp where
  success : Bool
deriving Repr, DecidableEq

namespace authAPI

/-- authAPI.login: try the live POST /auth/login; on any failure return
the mock identity whose role is derived from the email. -/
def login (email _password : String) (now : Int)
    (live : Except ApiError LoginResp) : Except ApiError LoginResp :=
  match live with
  | .ok r => .ok r
  | .error _ =>
      .ok
        { user :=
            { id := "1"
              email := email
              firstName := "Demo"
              lastName := "User"
              phoneNumber := "+91 9876543210"
              role := if jsIncludes email "authority" then "authority" else "tourist" }
          token := "mock-jwt-token-" ++ toString now }

/-- authAPI.register: try the live POST /auth/register; on any failure
return the mock `{ user: { id, ...userData, role: 'tourist' }, token }`,
with the literal field order of the source. -/
def register (userData : JsObj) (now : Int)
    (live : Except ApiError RegisterResp) : Except ApiError RegisterResp :=
  match live with
  | .ok r => .ok r
  | .error _ =>
      .ok
        { user := ([("id", "new-user-" ++ toString now)] : JsObj)
            ++ userData ++ ([("role", "tourist")] : JsObj)
          token := "mock-jwt-token-" ++ toString now }

/-- authAPI.verifyOTP: try the live POST /auth/verify-otp; on any
failure return `{ success: true }`. -/
def verifyOTP (_email _otp : String)
    (live : Except ApiError VerifyOTPResp) : Except ApiError VerifyOTPResp :=
  match live with
  | .ok r => .ok r
  | .error _ => .ok { success := true }

end authAPI

structure ProfileResp where
  id : String
  email : String
  firstName : String
  lastName : String
  isKYCVerified : Bool
  safetyScore : Nat
deriving Repr, DecidableEq

structure UpdateProfileResp (α : Type) where
  success : Bool
  data : α

structure UploadKYCResp where
  success : Bool
  message : String
deriving Repr, DecidableEq

namespace userAPI

/-- userAPI.getProfile: try the live GET /user/profile; on any failure
return the mock profile record. -/
def getProfile (live : Except ApiError ProfileResp) :
    Except ApiError ProfileResp :=
  match live with
  | .ok r => .ok r
  | .error _ =>
      .ok
        { id := "1"
          email := "demo@example.com"
          firstName := "Demo"
          lastName := "User"
          isKYCVerified := true
          safetyScore := 85 }

/-- userAPI.updateProfile: try the live PUT /user/profile; on any
failure acknowledge and echo the caller's payload. -/
def updateProfile {α : Type} (profileData : α)
    (live : Except ApiError (UpdateProfileResp α)) :
    Except ApiError (UpdateProfileResp α) :=
  match live with
  | .ok r => .ok r
  | .error _ => .ok { success := true, data := profileData }

/-- userAPI.uploadKYC: try the live POST /user/kyc; on any failure
return the fixed acknowledgement. -/
def uploadKYC {α : Type} (_formData : α)
    (live : Except ApiError UploadKYCResp) : Except ApiError UploadKYCResp :=
  match live with
  | .ok r => .ok r
  | .error _ => .ok { success := true, message := "KYC documents uploaded successfully" }

end userAPI

structure UpdateLocationResp where
  success : Bool
deriving Repr, DecidableEq

structure LocationEntry where
  lat : Rat
  lng : Rat
  timestamp : Int
deriving Repr, DecidableEq

structure LocationHistoryResp where
  locations : List LocationEntry
deriving Repr, DecidableEq

namespace locationAPI

/-- locationAPI.updateLocation: try the live POST /location/update; on
any failure return `{ success: true }`. -/
def updateLocation (_location : Rat × Rat)
    (live : Except ApiError UpdateLocationResp) :
    Except ApiError UpdateLocationResp :=
  match live with
  | .ok r => .ok r
  | .error _ => .ok { success := true }

/-- locationAPI.getLocationHistory: try the live GET /location/history;
on any failure return the three mock entries, with timestamps one hour
ago, half an hour ago, and now (in milliseconds). -/
def getLocationHistory (now : Int)
    (live : Except ApiError LocationHistoryResp) :
    Except ApiError LocationHistoryResp :=
  match live with
  | .ok r => .ok r
  | .error _ =>
      .ok
        { locations :=
            [ { lat := 26.1445, lng := 91.7362, timestamp := now - 3600000 }
            , { lat := 26.1465, lng := 91.7382, timestamp := now - 1800000 }
            , { lat := 26.1485, lng := 91.7402, timestamp := now } ] }

end locationAPI

structure PanicAlertResp where
  success : Bool
  alertId : String
  message : String
deriving Repr, DecidableEq

structure Alert where
  id : String
  type : String
  severity : String
  message : String
  timestamp : Int
  isRead : Bool
deriving Repr, DecidableEq

structure AlertsResp where
  alerts : List Alert
deriving Repr, DecidableEq

namespace alertAPI

/-- alertAPI.sendPanicAlert: try the live POST /alerts/panic; on any
failure return the fixed acknowledgement with a fresh alert id. -/
def sendPanicAlert {α : Type} (_alertData : α) (now : Int)
    (live : Except ApiError PanicAlertResp) : Except ApiError PanicAlertResp :=
  match live with
  | .ok r => .ok r
  | .error _ =>
      .ok
        { success := true
          alertId := "panic-" ++ toString now
          message := "Emergency alert sent successfully" }

/-- alertAPI.getAlerts: try the live GET /alerts/history; on any
failure return the two mock alerts. -/
def getAlerts (now : Int) (live : Except ApiError AlertsResp) :
    Except ApiError AlertsResp :=
  match live with
  | .ok r => .ok r
  | .error _ =>
      .ok
        { alerts :=
            [ { id := "alert-1"
                type := "advisory"
                severity := "medium"
                message := "Weather advisory: Heavy rain expected in Guwahati area"
                timestamp := now - 7200000
                isRead := false }
            , { id := "alert-2"
                type := "geo_fence"
                severity := "high"
                message := "You are approaching a restricted area"
                timestamp := now - 3600000
                isRead := true } ] }

end alertAPI

structure IssueDigitalIDResp where
  qrCode : String
  digitalId : String
deriving Repr, DecidableEq

structure QRCodeResp where
  qrCode : String
deriving Repr, DecidableEq

namespace blockchainAPI

/-- blockchainAPI.issueDigitalID: try the live POST /blockchain/issue-id;
on any failure return the fixed mock QR code with a fresh digital id. -/
def issueDigitalID (now : Int)
    (live : Except ApiError IssueDigitalIDResp) :
    Except ApiError IssueDigitalIDResp :=
  match live with
  | .ok r => .ok r
  | .error _ =>
      .ok
        { qrCode := "data:image/png;base64,iVBORw0KGgoAAAANSUhEUgAAAAEAAAABCAYAAAAfFcSJAAAADUlEQVR42mP8/5+hHgAHggJ/PchI7wAAAABJRU5ErkJggg=="
          digitalId := "DTID-" ++ toString now }

/-- blockchainAPI.getQRCode: try the live GET /blockchain/qr/{digitalId};
on any failure return the fixed mock QR code. -/
def getQRCode (_digitalId : String)
    (live : Except ApiError QRCodeResp) : Except ApiError QRCodeResp :=
  match live with
  | .ok r => .ok r
  | .error _ =>
      .ok
        { qrCode := "data:image/png;base64,iVBORw0KGgoAAAANSUhEUgAAAAEAAAABCAYAAAAfFcSJAAAADUlEQVR42mP8/5+hHgAHggJ/PchI7wAAAABJRU5ErkJggg==" }

end blockchainAPI

structure SafetyScoreResp where
  safetyScore : Nat
  factors : List String
deriving Repr, DecidableEq

namespace aiAPI

/-- The fixed candidate scores of the safety-score fallback. -/
def scores : List Nat := [75, 80, 85, 90, 95]

/-- The index computed by `Math.floor(Math.random() * scores.length)`
from the random sample. -/
def randIndex (rand : Rat) : Int := ⌊rand * (scores.length : Rat)⌋

/-- aiAPI.getSafetyScore: try the live GET /ai/safety-score; on any
failure pick a score from the candidate list at the random index.
JS array indexing is modelled total via getD; Math.random's contract
0 <= rand < 1 keeps the index in bounds. -/
def getSafetyScore (rand : Rat)
    (live : Except ApiError SafetyScoreResp) : Except ApiError SafetyScoreResp :=
  match live with
  | .ok r => .ok r
  | .error _ =>
      .ok
        { safetyScore := scores.getD (randIndex rand).toNat 0
          factors :=
            [ "Location tracking active"
            , "Emergency contacts verified"
            , "Current area safety: Good"
            , "Weather conditions: Clear" ] }

end aiAPI

/-- Timestamps carried by a location-history result (empty on the
rejected path, which the fallback never takes). -/
def timestampsOf (r : Except ApiError LocationHistoryResp) : List Int :=
  match r with
  | .ok v => v.locations.map (fun e => e.timestamp)
  | .error _ => []

/-- The safetyScore carried by a safety-score result (0 on the rejected
path, which the fallback never takes). -/
def scoreOf (r : Except ApiError SafetyScoreResp) : Nat :=
  match r with
  | .ok v => v.safetyScore
  | .error _ => 0

/-- C1: for every domain operation and every failure of the live call
(network error or timeout, i.e. no response, as well as any non-2xx
status including 401 unauthorized), the operation's wrapper catches the
failure and returns a synthesized value of the operation's declared
success-result type, never an error. -/
theorem fallback_absorbs_all_failures :
    ∀ (email password otp : String) (userData : JsObj) (now : Int)
      (profileData : JsObj) (location : Rat × Rat) (alertData : JsObj)
      (digitalId : String) (rand : Rat) (err : ApiError),
      (authAPI.login email password now (Except.error err)).isOk = true ∧
      (authAPI.register userData now (Except.error err)).isOk = true ∧
      (authAPI.verifyOTP email otp (Except.error err)).isOk = true ∧
      (userAPI.getProfile (Except.error err)).isOk = true ∧
      (userAPI.updateProfile profileData (Except.error err)).isOk = true ∧
      (userAPI.uploadKYC userData (Except.error err)).isOk = true ∧
      (locationAPI.updateLocation location (Except.error err)).isOk = true ∧
      (locationAPI.getLocationHistory now (Except.error err)).isOk = true ∧
      (alertAPI.sendPanicAlert alertData now (Except.error err)).isOk = true ∧
      (alertAPI.getAlerts now (Except.error err)).isOk = true ∧
      (blockchainAPI.issueDigitalID now (Except.error err)).isOk = true ∧
      (blockchainAPI.getQRCode digitalId (Except.error err)).isOk = true ∧
      (aiAPI.getSafetyScore rand (Except.error err)).isOk = true := by
  intros
  exact ⟨rfl, rfl, rfl, rfl, rfl, rfl, rfl, rfl, rfl, rfl, rfl, rfl, rfl⟩

/-- C2: the response interceptor's success path returns the response
unchanged, and every domain operation wrapper, when the live call
succeeds, returns exactly the server's data with no modification. -/
theorem success_passthrough :
    (∀ (α : Type) (resp : α), responseSuccessInterceptor resp = resp) ∧
    (∀ (email password otp : String) (userData : JsObj) (now : Int)
      (profileData : JsObj) (location : Rat × Rat) (alertData : JsObj)
      (digitalId : String) (rand : Rat)
      (r1 : LoginResp) (r2 : RegisterResp) (r3 : VerifyOTPResp)
      (r4 : ProfileResp) (r5 : UpdateProfileResp JsObj) (r6 : UploadKYCResp)
      (r7 : UpdateLocationResp) (r8 : LocationHistoryResp)
      (r9 : PanicAlertResp) (r10 : AlertsResp) (r11 : IssueDigitalIDResp)
      (r12 : QRCodeResp) (r13 : SafetyScoreResp),
      authAPI.login email password now (Except.ok r1) = Except.ok r1 ∧
      authAPI.register userData now (Except.ok r2) = Except.ok r2 ∧
      authAPI.verifyOTP email otp (Except.ok r3) = Except.ok r3 ∧
      userAPI.getProfile (Except.ok r4) = Except.ok r4 ∧
      userAPI.updateProfile profileData (Except.ok r5) = Except.ok r5 ∧
      userAPI.uploadKYC userData (Except.ok r6) = Except.ok r6 ∧
      locationAPI.updateLocation location (Except.ok r7) = Except.ok r7 ∧
      locationAPI.getLocationHistory now (Except.ok r8) = Except.ok r8 ∧
      alertAPI.sendPanicAlert alertData now (Except.ok r9) = Except.ok r9 ∧
      alertAPI.getAlerts now (Except.ok r10) = Except.ok r10 ∧
      blockchainAPI.issueDigitalID now (Except.ok r11) = Except.ok r11 ∧
      blockchainAPI.getQRCode digitalId (Except.ok r12) = Except.ok r12 ∧
      aiAPI.getSafetyScore rand (Except.ok r13) = Except.ok r13) := by
  refine ⟨fun α resp => rfl, ?_⟩
  intros
  exact ⟨rfl, rfl, rfl, rfl, rfl, rfl, rfl, rfl, rfl, rfl, rfl, rfl, rfl⟩

/-- C9: in fallback mode the one-time-code verification returns
success: true for every email and every otp value. -/
theorem verifyOTP_fallback_always_succeeds :
    ∀ (email otp : String) (err : ApiError),
      authAPI.verifyOTP email otp (Except.error err)
        = Except.ok { success := true } := by
  intros
  rfl

/-- C10: the QR-code-retrieval fallback is independent of its input:
for any two digitalId strings and any two failures, the synthesized
results are identical. -/
theorem getQRCode_fallback_input_independent :
    ∀ (id1 id2 : String) (e1 e2 : ApiError),
      blockchainAPI.getQRCode id1 (Except.error e1)
        = blockchainAPI.getQRCode id2 (Except.error e2) := by
  intros
  rfl

/-- C5: in the login fallback the synthesized role is the privileged
"authority" role exactly when the supplied email contains the substring
"authority"; in particular "authority.bob@example.com" yields the
privileged role and "bob@example.com" yields the default role. -/
theorem login_fallback_role :
    (∀ (email password : String) (now : Int) (err : ApiError),
      ((authAPI.login email password now (Except.error err)).map
          (fun r => r.user.role) = Except.ok "authority"
        ↔ jsIncludes email "authority" = true)) ∧
    (∀ (password : String) (now : Int) (err : ApiError),
      (authAPI.login "authority.bob@example.com" password now
          (Except.error err)).map (fun r => r.user.role)
        = Except.ok "authority") ∧
    (∀ (password : String) (now : Int) (err : ApiError),
      (authAPI.login "bob@example.com" password now
          (Except.error err)).map (fun r => r.user.role)
        = Except.ok "tourist") := by
  refine ⟨?_, ?_, ?_⟩
  · intro email password now err
    by_cases h : jsIncludes email "authority" = true
    · simp [authAPI.login, h, Except.map]
    · refine iff_of_false ?_ (by simp [h])
      intro hcontra
      simp [authAPI.login, h, Except.map] at hcontra
  · intro password now err
    have h : jsIncludes "authority.bob@example.com" "authority" = true := by decide
    simp [authAPI.login, h, Except.map]
  · intro password now err
    have h : jsIncludes "bob@example.com" "authority" = false := by decide
    simp [authAPI.login, h, Except.map]

/-- C7: the location-history fallback returns exactly 3 entries, their
timestamps are strictly increasing, and the largest timestamp is at or
before the clock sample taken when the fallback is synthesized. -/
theorem getLocationHistory_fallback_timestamps :
    ∀ (now : Int) (err : ApiError),
      (timestampsOf (locationAPI.getLocationHistory now (Except.error err))).length = 3 ∧
      (timestampsOf (locationAPI.getLocationHistory now (Except.error err))).Chain' (· < ·) ∧
      (∀ t ∈ timestampsOf (locationAPI.getLocationHistory now (Except.error err)),
        t ≤ now) := by
  intro now err
  refine ⟨rfl, ?_, ?_⟩
  · have h3 : timestampsOf (locationAPI.getLocationHistory now (Except.error err))
        = [now - 3600000, now - 1800000, now] := rfl
    rw [h3]
    refine List.chain'_cons.mpr ⟨by omega, List.chain'_cons.mpr ⟨by omega, ?_⟩⟩
    exact List.chain'_singleton _
  · intro t ht
    simp [timestampsOf, locationAPI.getLocationHistory] at ht
    rcases ht with h | h | h <;> omega

/-- C4: the response interceptor's error path: a 401 response empties
the token slot, performs exactly one navigation to the login route, and
re-raises the error; any other error (any other status, or no response
at all) is re-raised with the browser state untouched. -/
theorem responseErrorInterceptor_behavior :
    ∀ (st : BrowserState) (err : ApiError),
      (err.response = some 401 →
        (responseErrorInterceptor st err).1.authToken = none ∧
        (responseErrorInterceptor st err).1.navHistory
          = st.navHistory ++ ["/auth/login"] ∧
        (responseErrorInterceptor st err).2 = err) ∧
      (err.response ≠ some 401 →
        (responseErrorInterceptor st err).1 = st ∧
        (responseErrorInterceptor st err).2 = err) := by
  intro st err
  constructor
  · intro h
    simp [responseErrorInterceptor, h]
  · intro h
    simp [responseErrorInterceptor, h]

/-- Witness for C4 at a concrete 401 error and a concrete state. -/
theorem responseErrorInterceptor_behavior_witness :
    (responseErrorInterceptor { authToken := some "tok", navHistory := [] }
        { response := some 401 }).1.authToken = none ∧
    (responseErrorInterceptor { authToken := some "tok", navHistory := [] }
        { response := some 401 }).1.navHistory = [] ++ ["/auth/login"] ∧
    (responseErrorInterceptor { authToken := some "tok", navHistory := [] }
        { response := some 401 }).2 = { response := some 401 } :=
  (responseErrorInterceptor_behavior
    { authToken := some "tok", navHistory := [] } { response := some 401 }).1 rfl

/-- Counterexample for C3: when the token slot holds the empty string,
the store is non-empty yet the interceptor attaches no Authorization
header at all (JS truthiness of the empty string), contradicting the
claim that the header would be exactly "Bearer " followed by the stored
token. -/
theorem requestInterceptor_empty_token_counterexample :
    (requestInterceptor (some "") baseConfig).authorization = none ∧
    ¬ ((requestInterceptor (some "") baseConfig).authorization
        = some ("Bearer " ++ "")) := by
  exact ⟨rfl, by decide⟩

/-- C3 (amended): if the credential store holds a NONEMPTY token T, the
outgoing request's Authorization header is exactly "Bearer " followed
by T; if the store is empty, or holds the empty string (which is
JS-falsy), the config passes through unchanged and no header is
attached. -/
theorem requestInterceptor_attaches_nonempty_token :
    ∀ (store : Option String) (config : RequestConfig),
      (∀ t : String, store = some t → t ≠ "" →
        (requestInterceptor store config).authorization
          = some ("Bearer " ++ t)) ∧
      (store = none → requestInterceptor store config = config) ∧
      (store = some "" → requestInterceptor store config = config) := by
  intro store config
  refine ⟨?_, ?_, ?_⟩
  · intro t hs ht
    subst hs
    simp [requestInterceptor, ht]
  · intro hs
    subst hs
    rfl
  · intro hs
    subst hs
    rfl

/-- Witness for the amended C3 at a concrete nonempty token. -/
theorem requestInterceptor_attaches_nonempty_token_witness :
    (requestInterceptor (some "tok123") baseConfig).authorization
      = some ("Bearer " ++ "tok123") :=
  (requestInterceptor_attaches_nonempty_token (some "tok123") baseConfig).1
    "tok123" rfl (by decide)

/-- Counterexample for C6: in the register fallback, a userData whose
email contains "authority" still yields role "tourist", because the
literal writes role after the spread; the claim's predicted role
"authority" differs. -/
theorem register_fallback_role_counterexample :
    jsIncludes "authority.bob@example.com" "authority" = true ∧
    (authAPI.register [("email", "authority.bob@example.com")] 0
        (Except.error { response := none })).map
      (fun r => jsGet r.user "role") = Except.ok (some "tourist") ∧
    some ("tourist" : String) ≠ some ("authority" : String) := by
  refine ⟨by decide, rfl, by decide⟩

/-- C6 (amended): the register fallback always assigns the default
non-privileged role "tourist", regardless of the supplied userData
(and in particular regardless of its email). -/
theorem register_fallback_role_always_tourist :
    ∀ (userData : JsObj) (now : Int) (err : ApiError),
      (authAPI.register userData now (Except.error err)).map
        (fun r => jsGet r.user "role") = Except.ok (some "tourist") := by
  intro userData now err
  simp [authAPI.register, Except.map, jsGet, List.reverse_append, List.find?]

/-- C8: for any random sample in [0,1) the safety-score fallback picks
a member of the fixed candidate list; the set of samples selecting the
candidate at index i is exactly the interval [i/5, (i+1)/5), so all
five intervals have the same length 1/5 and — the candidates being
pairwise distinct — each candidate is selected with equal probability
under a uniform sample. -/
theorem getSafetyScore_fallback_uniform :
    ∀ (rand : Rat) (err : ApiError),
      (0 ≤ rand → rand < 1 →
        scoreOf (aiAPI.getSafetyScore rand (Except.error err)) ∈ aiAPI.scores) ∧
      (∀ i : Nat, i < 5 →
        (aiAPI.randIndex rand = (i : Int) ↔
          ((i : Rat) / 5 ≤ rand ∧ rand < ((i : Rat) + 1) / 5))) ∧
      aiAPI.scores.Nodup := by
  intro rand err
  have hlen : ((aiAPI.scores.length : Nat) : Rat) = 5 := by
    norm_num [aiAPI.scores]
  refine ⟨?_, ?_, by decide⟩
  · intro h0 h1
    have hsc : scoreOf (aiAPI.getSafetyScore rand (Except.error err))
        = aiAPI.scores.getD (aiAPI.randIndex rand).toNat 0 := rfl
    have hge : (0 : Int) ≤ aiAPI.randIndex rand := by
      simp only [aiAPI.randIndex]
      rw [hlen]
      exact Int.le_floor.mpr
        (by push_cast; exact mul_nonneg h0 (by norm_num))
    have hlt : aiAPI.randIndex rand < 5 := by
      simp only [aiAPI.randIndex]
      rw [hlen]
      apply Int.floor_lt.mpr
      push_cast
      nlinarith
    have hn : (aiAPI.randIndex rand).toNat < aiAPI.scores.length := by
      simp only [aiAPI.scores, List.length]
      omega
    rw [hsc, List.getD_eq_getElem aiAPI.scores 0 hn]
    exact List.getElem_mem hn
  · intro i hi
    simp only [aiAPI.randIndex]
    rw [hlen, Int.floor_eq_iff]
    push_cast
    rw [div_le_iff₀ (show (0 : Rat) < 5 by norm_num),
      lt_div_iff₀ (show (0 : Rat) < 5 by norm_num)]

/-- Witness for C8 at the concrete sample 1/2: the selected score is a
member of the candidate list. -/
theorem getSafetyScore_fallback_uniform_witness :
    scoreOf (aiAPI.getSafetyScore (1 / 2) (Except.error { response := none }))
      ∈ aiAPI.scores :=
  (getSafetyScore_fallback_uniform (1 / 2) { response := none }).1
    (by norm_num) (by norm_num)
